import Mathlib

/-!
Verification development for the replication-configuration subsystem of the
cblite-js repository (files `replicator-configuration.ts`,
`collection-configuration.ts`, `collection-config.ts`).

The TypeScript classes are shallowly embedded as Lean structures; methods
become pure functions, and methods that can `throw` return
`Except String α` where the `error` case carries the thrown message and
means the receiver object was left exactly as it was before the call
(in the source every `throw` happens before any assignment to `this`).

JavaScript values that flow towards `JSON.stringify` are modelled by
`JSValue`, which keeps the distinction between `null` and `undefined`;
`JSValue.encode` models the observable effect of `JSON.stringify`:
an object field whose value is `undefined` is dropped, an `undefined`
array element becomes `null`.  The wire payload is modelled as the
resulting `Json` tree (the textual rendering is injective on trees, so
equality of trees is equality of payloads).
-/

/-- The result of JSON encoding: a JSON tree (no `undefined`). -/
inductive Json where
  | null : Json
  | bool : Bool → Json
  | num : Int → Json
  | str : String → Json
  | arr : List Json → Json
  | obj : List (String × Json) → Json

/-- A JavaScript runtime value as it is handed to `JSON.stringify`;
`undef` models `undefined`, which is distinct from `null`. -/
inductive JSValue where
  | undef : JSValue
  | null : JSValue
  | bool : Bool → JSValue
  | num : Int → JSValue
  | str : String → JSValue
  | arr : List JSValue → JSValue
  | obj : List (String × JSValue) → JSValue

mutual

/-- Models `JSON.stringify` at the value level: `undefined` at top level
produces no output (`none`); inside an object the field is dropped;
inside an array it becomes `null`. -/
def JSValue.encode : JSValue → Option Json
  | .undef => none
  | .null => some .null
  | .bool b => some (.bool b)
  | .num n => some (.num n)
  | .str s => some (.str s)
  | .arr xs => some (.arr (JSValue.encodeElems xs))
  | .obj fs => some (.obj (JSValue.encodeFields fs))

/-- Array elements: an `undefined` element encodes as `null`. -/
def JSValue.encodeElems : List JSValue → List Json
  | [] => []
  | x :: xs => (x.encode.getD .null) :: JSValue.encodeElems xs

/-- Object fields: a field whose value is `undefined` is omitted. -/
def JSValue.encodeFields : List (String × JSValue) → List (String × Json)
  | [] => []
  | (k, v) :: fs =>
    (match v.encode with
     | some j => [(k, j)]
     | none => []) ++ JSValue.encodeFields fs

end

mutual

/-- Lifts a ready-made `Json` tree into `JSValue` (used for values that are
already plain JSON, e.g. an endpoint's serialized form). -/
def Json.toJS : Json → JSValue
  | .null => .null
  | .bool b => .bool b
  | .num n => .num n
  | .str s => .str s
  | .arr xs => .arr (Json.toJSElems xs)
  | .obj fs => .obj (Json.toJSFields fs)

/-- Elementwise `Json.toJS` on arrays. -/
def Json.toJSElems : List Json → List JSValue
  | [] => []
  | x :: xs => x.toJS :: Json.toJSElems xs

/-- Fieldwise `Json.toJS` on objects. -/
def Json.toJSFields : List (String × Json) → List (String × JSValue)
  | [] => []
  | (k, v) :: fs => (k, v.toJS) :: Json.toJSFields fs

end

/-- External collaborator (identity and naming only, per the spec): a
Collection is a reference to an object carrying a name, a scope name and
a database unique name.  `ref` models the JavaScript object reference:
`===` on Collection objects is equality of `ref`; two structurally equal
collections created separately have different `ref`s. -/
structure Collection where
  ref : Nat
  name : String
  scopeName : String
  databaseName : String
deriving DecidableEq, Repr

/-- Modelled from the spec: `Collection.serialize()` → `{name, scopeName,
databaseName}` (the Collection class itself is outside this subsystem;
only its serialized identity shape is specified). -/
def Collection.toJson (c : Collection) : Json :=
  .obj [("name", .str c.name), ("scopeName", .str c.scopeName),
        ("databaseName", .str c.databaseName)]

/-- External collaborator: an endpoint; its serialized form is opaque. -/
structure Endpoint where
  json : Json

/-- Endpoint.toJson returns the endpoint-specific serialized form. -/
def Endpoint.toJson (e : Endpoint) : Json := e.json

/-- External collaborator: an authenticator, specified only through
`getType()` and `toJson()`. -/
structure Authenticator where
  kind : String
  data : Json

/-- Authenticator.getType. -/
def Authenticator.getType (a : Authenticator) : String := a.kind

/-- Authenticator.toJson. -/
def Authenticator.toJson (a : Authenticator) : Json := a.data

/-- A replication filter value as this subsystem sees it: the only thing
the code ever uses of the function argument is `.toString()`, so a filter
is modelled by its source text.  `eval('(' + s + ')')` followed by
`.toString()` gives back `s`, so reconstruction round-trips the text. -/
structure ReplicationFilter where
  source : String
deriving DecidableEq, Repr

/-- Function.prototype.toString on a filter. -/
def ReplicationFilter.toText (f : ReplicationFilter) : String := f.source

/-- Models `eval`-based reconstruction of a filter from its stored text
(used only by `clone`): the reconstructed function's source text is the
stored text. -/
def ReplicationFilter.ofText (s : String) : ReplicationFilter := ⟨s⟩

/-! ## CollectionConfig (OLD schema, `collection-config.ts`)

Fields `channels` and `documentIDs` are typed `string[]` in TypeScript but
the setters store their argument unchecked, so a caller passing
`null`/`undefined` stores that value; this is modelled by
`Option (List String)` where `none` stands for a stored `null`/`undefined`.
Filters are `undefined` until set (never `null`), hence `Option String`
with `none` ↦ `JSValue.undef` in `toJson`. -/

structure CollectionConfig where
  channels : Option (List String)
  documentIDs : Option (List String)
  pullFilter : Option String
  pushFilter : Option String
deriving DecidableEq, Repr

namespace CollectionConfig

/-- The constructor: `channels = []`, `documentIDs = []`, both filters
`undefined`. -/
def init : CollectionConfig :=
  { channels := some [], documentIDs := some [], pullFilter := none,
    pushFilter := none }

/-- getChannels returns the stored value unchanged. -/
def getChannels (c : CollectionConfig) : Option (List String) := c.channels

/-- getDocumentIDs returns the stored value unchanged. -/
def getDocumentIDs (c : CollectionConfig) : Option (List String) :=
  c.documentIDs

/-- getPullFilter returns the stored filter text (or `undefined`). -/
def getPullFilter (c : CollectionConfig) : Option String := c.pullFilter

/-- getPushFilter returns the stored filter text (or `undefined`). -/
def getPushFilter (c : CollectionConfig) : Option String := c.pushFilter

/-- setChannels stores its argument as given — there is no null-collapse
in this class (`this.channels = channels`). -/
def setChannels (c : CollectionConfig) (channels : Option (List String)) :
    CollectionConfig :=
  { c with channels := channels }

/-- setDocumentIDs stores its argument as given. -/
def setDocumentIDs (c : CollectionConfig)
    (documentIDs : Option (List String)) : CollectionConfig :=
  { c with documentIDs := documentIDs }

/-- setPullFilter stores the function's source text. -/
def setPullFilter (c : CollectionConfig) (f : ReplicationFilter) :
    CollectionConfig :=
  { c with pullFilter := some f.toText }

/-- setPushFilter stores the function's source text. -/
def setPushFilter (c : CollectionConfig) (f : ReplicationFilter) :
    CollectionConfig :=
  { c with pushFilter := some f.toText }

/-- A stored list (or `null`) as a JavaScript value. -/
def listJS : Option (List String) → JSValue
  | none => .null
  | some xs => .arr (xs.map .str)

/-- A stored filter as a JavaScript value: `undefined` when absent. -/
def filterJS : Option String → JSValue
  | none => .undef
  | some s => .str s

/-- toJson: the returned JavaScript object keeps the key order of the
source (`channels`, `documentIds`, `pullFilter`, `pushFilter`); absent
filters have the value `undefined`. -/
def toJson (c : CollectionConfig) : JSValue :=
  .obj [("channels", listJS c.channels),
        ("documentIds", listJS c.documentIDs),
        ("pullFilter", filterJS c.pullFilter),
        ("pushFilter", filterJS c.pushFilter)]

end CollectionConfig

/-! ## CollectionConfiguration (NEW schema, `collection-configuration.ts`) -/

structure CollectionConfiguration where
  collection : Collection
  channels : List String
  documentIds : List String
  pushFilter : Option String
  pullFilter : Option String
deriving DecidableEq, Repr

namespace CollectionConfiguration

/-- The constructor `new CollectionConfiguration(collection)`; the
null-collection check is outside the model (a `Collection` value is
always a real reference).  Lists start empty, filters unset. -/
def init (col : Collection) : CollectionConfiguration :=
  { collection := col, channels := [], documentIds := [], pushFilter := none,
    pullFilter := none }

/-- getCollection. -/
def getCollection (c : CollectionConfiguration) : Collection := c.collection

/-- getChannels. -/
def getChannels (c : CollectionConfiguration) : List String := c.channels

/-- getDocumentIDs. -/
def getDocumentIDs (c : CollectionConfiguration) : List String :=
  c.documentIds

/-- getPushFilter. -/
def getPushFilter (c : CollectionConfiguration) : Option String :=
  c.pushFilter

/-- getPullFilter. -/
def getPullFilter (c : CollectionConfiguration) : Option String :=
  c.pullFilter

/-- setChannels: `this._channels = channels ?? []` — a `null`/`undefined`
argument collapses to the empty list. -/
def setChannels (c : CollectionConfiguration)
    (channels : Option (List String)) : CollectionConfiguration :=
  { c with channels := channels.getD [] }

/-- setDocumentIDs: `this._documentIds = documentIds ?? []`. -/
def setDocumentIDs (c : CollectionConfiguration)
    (documentIds : Option (List String)) : CollectionConfiguration :=
  { c with documentIds := documentIds.getD [] }

/-- setPushFilter stores the function's source text. -/
def setPushFilter (c : CollectionConfiguration) (f : ReplicationFilter) :
    CollectionConfiguration :=
  { c with pushFilter := some f.toText }

/-- setPullFilter stores the function's source text. -/
def setPullFilter (c : CollectionConfiguration) (f : ReplicationFilter) :
    CollectionConfiguration :=
  { c with pullFilter := some f.toText }

/-- An optional filter as a JavaScript value: `?? null` in the source, so
absent filters become `null`, not `undefined`. -/
def filterJS : Option String → JSValue
  | none => .null
  | some s => .str s

/-- toJson: `{collection: ..., config: {channels, documentIds,
pushFilter: ?? null, pullFilter: ?? null}}`. -/
def toJson (c : CollectionConfiguration) : JSValue :=
  .obj [("collection", c.collection.toJson.toJS),
        ("config", .obj
          [("channels", .arr (c.channels.map .str)),
           ("documentIds", .arr (c.documentIds.map .str)),
           ("pushFilter", filterJS c.pushFilter),
           ("pullFilter", filterJS c.pullFilter)])]

end CollectionConfiguration

/-! ## ReplicatorConfiguration (`replicator-configuration.ts`) -/

/-- The `ReplicatorType` enum. -/
inductive ReplicatorType where
  | pushAndPull : ReplicatorType
  | push : ReplicatorType
  | pull : ReplicatorType
deriving DecidableEq, Repr

/-- The string value of each enum member. -/
def ReplicatorType.toWire : ReplicatorType → String
  | .pushAndPull => "PUSH_AND_PULL"
  | .push => "PUSH"
  | .pull => "PULL"

/-- One entry of the OLD-schema `collectionsMap : Map<Collection[],
CollectionConfig>`.  `keyRef` is the JavaScript reference identity of the
key array (Map keys are compared with `===`); `keyCols` its contents;
`value` may be `undefined` (callers may add collections without a
config). -/
structure MapEntry where
  keyRef : Nat
  keyCols : List Collection
  value : Option CollectionConfig
deriving DecidableEq, Repr

structure ReplicatorConfiguration where
  isNewApi : Bool
  collectionConfigurations : List CollectionConfiguration
  collectionsMap : List MapEntry
  /-- Allocation counter for fresh array references used as map keys:
  every key array passed to `Map.set` by `addCollection` /
  `addCollections` is a fresh object, modelled by consuming `nextRef`. -/
  nextRef : Nat
  target : Endpoint
  replicatorType : ReplicatorType
  continuous : Bool
  autoPurgeEnabled : Bool
  heartbeat : Int
  maxAttempts : Int
  maxAttemptWaitTime : Int
  acceptOnlySelfSignedCerts : Bool
  acceptParentDomainCookies : Bool
  allowReplicatingInBackground : Bool
  authenticator : Option Authenticator
  headers : Option (List (String × String))
  pinnedServerCertificate : Option String

namespace ReplicatorConfiguration

/-- Default values (static fields of the class). -/
def defaultContinuous : Bool := false
def defaultEnableAutoPurge : Bool := true
def defaultSelfSignedCertificateOnly : Bool := true
def defaultAcceptParentDomainCookies : Bool := false
def defaultAllowReplicatingInBackground : Bool := false
def defaultHeartbeat : Int := 300
def defaultMaxAttemptsSingleShot : Int := 10
def defaultMaxAttemptsWaitTime : Int := 300

/-- The part of the constructor shared by both API branches: all global
policy fields set to their defaults. -/
def mkBase (isNew : Bool) (configs : List CollectionConfiguration)
    (t : Endpoint) : ReplicatorConfiguration :=
  { isNewApi := isNew
    collectionConfigurations := configs
    collectionsMap := []
    nextRef := 0
    target := t
    replicatorType := .pushAndPull
    continuous := defaultContinuous
    autoPurgeEnabled := defaultEnableAutoPurge
    heartbeat := defaultHeartbeat
    acceptOnlySelfSignedCerts := defaultSelfSignedCertificateOnly
    acceptParentDomainCookies := defaultAcceptParentDomainCookies
    allowReplicatingInBackground := defaultAllowReplicatingInBackground
    maxAttempts := defaultMaxAttemptsSingleShot
    maxAttemptWaitTime := defaultMaxAttemptsWaitTime
    authenticator := none
    headers := none
    pinnedServerCertificate := none }

/-- NEW-API constructor branch:
`new ReplicatorConfiguration(collectionConfigurations, target)`.
Throws when the array is empty or the target is absent. -/
def mkNew (configs : List CollectionConfiguration) (target : Option Endpoint) :
    Except String ReplicatorConfiguration :=
  if configs.isEmpty then
    .error "At least one collection configuration is required"
  else
    match target with
    | none => .error "Target endpoint is required"
    | some t => .ok (mkBase true configs t)

/-- OLD-API constructor branch: `new ReplicatorConfiguration(target)`. -/
def mkOld (target : Endpoint) : ReplicatorConfiguration :=
  mkBase false [] target

/-- JavaScript `Map.set` on the OLD-schema map: keys are array
references; if an entry with the same reference exists its value is
updated in place (position kept), otherwise the entry is appended in
insertion order. -/
def mapSet (m : List MapEntry) (r : Nat) (cols : List Collection)
    (v : Option CollectionConfig) : List MapEntry :=
  if m.any (fun e => e.keyRef == r) then
    m.map (fun e => if e.keyRef == r then { e with value := v } else e)
  else
    m ++ [⟨r, cols, v⟩]

/-- getCollectionConfigurations. -/
def getCollectionConfigurations (rc : ReplicatorConfiguration) :
    List CollectionConfiguration :=
  rc.collectionConfigurations

/-- getCollections: NEW schema maps each configuration to its collection
(attachment order); OLD schema concatenates every key array of the map in
entry order (`Map` iteration order is insertion order). -/
def getCollections (rc : ReplicatorConfiguration) : List Collection :=
  if rc.isNewApi then
    rc.collectionConfigurations.map CollectionConfiguration.getCollection
  else
    (rc.collectionsMap.map MapEntry.keyCols).flatten

/-- getTarget. -/
def getTarget (rc : ReplicatorConfiguration) : Endpoint := rc.target

/-- addCollection: OLD-schema mutator.  On a NEW-API instance it throws
before touching any state; otherwise `this.collectionsMap.set([collection],
config)` runs with a freshly created singleton array as key. -/
def addCollection (rc : ReplicatorConfiguration) (c : Collection)
    (config : Option CollectionConfig) :
    Except String ReplicatorConfiguration :=
  if rc.isNewApi then
    .error "Cannot call addCollection() on NEW API instance. Collections must be provided at construction."
  else
    .ok { rc with
          collectionsMap := mapSet rc.collectionsMap rc.nextRef [c] config
          nextRef := rc.nextRef + 1 }

/-- addCollections: like `addCollection` but the caller's array is the
key; a caller always passes an array object distinct from every key
already in the map, modelled by consuming a fresh reference. -/
def addCollections (rc : ReplicatorConfiguration) (cs : List Collection)
    (config : Option CollectionConfig) :
    Except String ReplicatorConfiguration :=
  if rc.isNewApi then
    .error "Cannot call addCollections() on NEW API instance. Collections must be provided at construction."
  else
    .ok { rc with
          collectionsMap := mapSet rc.collectionsMap rc.nextRef cs config
          nextRef := rc.nextRef + 1 }

/-- The loop body of `removeCollection`: scan entries in iteration order
for the first whose key array `includes` the collection; compute the
filtered copy; if it is empty, `delete` the entry, otherwise fall through
(the filtered array is computed but never stored back); in either case
`return` ends the scan at the first hit. -/
def removeScan : List MapEntry → Collection → List MapEntry
  | [], _ => []
  | e :: rest, c =>
    if c ∈ e.keyCols then
      if (e.keyCols.filter (fun x => x != c)).isEmpty then
        rest
      else
        e :: rest
    else
      e :: removeScan rest c

/-- removeCollection: OLD-schema mutator; throws on NEW API. -/
def removeCollection (rc : ReplicatorConfiguration) (c : Collection) :
    Except String ReplicatorConfiguration :=
  if rc.isNewApi then
    .error "Cannot call removeCollection() on NEW API instance. Collections are immutable."
  else
    .ok { rc with collectionsMap := removeScan rc.collectionsMap c }

/-- removeCollections: throws on NEW API, otherwise calls
`removeCollection` for each element in order (the inner calls cannot
throw because the instance is OLD API). -/
def removeCollections (rc : ReplicatorConfiguration)
    (cs : List Collection) : Except String ReplicatorConfiguration :=
  if rc.isNewApi then
    .error "Cannot call removeCollections() on NEW API instance. Collections are immutable."
  else
    .ok { rc with
          collectionsMap := cs.foldl removeScan rc.collectionsMap }

/-- Lookup loop of `getCollectionConfig`: first entry whose key array
includes the collection; `undefined` if none (a found entry may itself
hold an `undefined` config, indistinguishable from not-found, as in the
source). -/
def findCollectionConfig : List MapEntry → Collection →
    Option CollectionConfig
  | [], _ => none
  | e :: rest, c =>
    if c ∈ e.keyCols then e.value else findCollectionConfig rest c

/-- getCollectionConfig: throws on NEW API. -/
def getCollectionConfig (rc : ReplicatorConfiguration) (c : Collection) :
    Except String (Option CollectionConfig) :=
  if rc.isNewApi then
    .error "Cannot call getCollectionConfig() on NEW API instance. Use getCollectionConfigurations() instead."
  else
    .ok (findCollectionConfig rc.collectionsMap c)

/-- Plain getters. -/
def getAcceptOnlySelfSignedCerts (rc : ReplicatorConfiguration) : Bool :=
  rc.acceptOnlySelfSignedCerts
def getAcceptParentDomainCookies (rc : ReplicatorConfiguration) : Bool :=
  rc.acceptParentDomainCookies
def getAllowReplicatingInBackground (rc : ReplicatorConfiguration) : Bool :=
  rc.allowReplicatingInBackground
def getAutoPurgeEnabled (rc : ReplicatorConfiguration) : Bool :=
  rc.autoPurgeEnabled
def getAuthenticator (rc : ReplicatorConfiguration) : Option Authenticator :=
  rc.authenticator
def getContinuous (rc : ReplicatorConfiguration) : Bool := rc.continuous
def getHeaders (rc : ReplicatorConfiguration) :
    Option (List (String × String)) := rc.headers
def getHeartbeat (rc : ReplicatorConfiguration) : Int := rc.heartbeat
def getMaxAttempts (rc : ReplicatorConfiguration) : Int := rc.maxAttempts
def getMaxAttemptWaitTime (rc : ReplicatorConfiguration) : Int :=
  rc.maxAttemptWaitTime
def getPinnedServerCertificate (rc : ReplicatorConfiguration) :
    Option String := rc.pinnedServerCertificate
def getReplicatorType (rc : ReplicatorConfiguration) : ReplicatorType :=
  rc.replicatorType

/-- Plain setters (no validation in the source). -/
def setAcceptOnlySelfSignedCerts (rc : ReplicatorConfiguration) (b : Bool) :
    ReplicatorConfiguration := { rc with acceptOnlySelfSignedCerts := b }
def setAcceptParentDomainCookies (rc : ReplicatorConfiguration) (b : Bool) :
    ReplicatorConfiguration := { rc with acceptParentDomainCookies := b }
def setAllowReplicatingInBackground (rc : ReplicatorConfiguration)
    (b : Bool) : ReplicatorConfiguration :=
  { rc with allowReplicatingInBackground := b }
def setAutoPurgeEnabled (rc : ReplicatorConfiguration) (b : Bool) :
    ReplicatorConfiguration := { rc with autoPurgeEnabled := b }
def setAuthenticator (rc : ReplicatorConfiguration)
    (a : Option Authenticator) : ReplicatorConfiguration :=
  { rc with authenticator := a }
def setContinuous (rc : ReplicatorConfiguration) (b : Bool) :
    ReplicatorConfiguration := { rc with continuous := b }
def setHeaders (rc : ReplicatorConfiguration)
    (h : Option (List (String × String))) : ReplicatorConfiguration :=
  { rc with headers := h }
def setHeartbeat (rc : ReplicatorConfiguration) (n : Int) :
    ReplicatorConfiguration := { rc with heartbeat := n }
def setMaxAttempts (rc : ReplicatorConfiguration) (n : Int) :
    ReplicatorConfiguration := { rc with maxAttempts := n }
def setPinnedServerCertificate (rc : ReplicatorConfiguration)
    (s : Option String) : ReplicatorConfiguration :=
  { rc with pinnedServerCertificate := s }
def setReplicatorType (rc : ReplicatorConfiguration) (t : ReplicatorType) :
    ReplicatorConfiguration := { rc with replicatorType := t }

/-- setMaxAttemptWaitTime: the only validated scalar setter.  A
non-negative value is stored; a negative one throws, before any
assignment, so the stored value is untouched. -/
def setMaxAttemptWaitTime (rc : ReplicatorConfiguration) (n : Int) :
    Except String ReplicatorConfiguration :=
  if n ≥ 0 then
    .ok { rc with maxAttemptWaitTime := n }
  else
    .error "Error:  maxAttemptWaitTime cannot be negative."

/-- validateCollectionsScopeAndDatabase: false on an empty configuration
list; otherwise every collection must match the first one's database
unique name and scope name. -/
def validateCollectionsScopeAndDatabase (rc : ReplicatorConfiguration) :
    Bool :=
  match rc.collectionConfigurations with
  | [] => false
  | c0 :: _ =>
    rc.collectionConfigurations.all fun cfg =>
      cfg.getCollection.databaseName == c0.getCollection.databaseName &&
      cfg.getCollection.scopeName == c0.getCollection.scopeName

end ReplicatorConfiguration

namespace ReplicatorConfiguration

/-- The `headers` wire field: the stored map when defined, else the
empty-string sentinel. -/
def headersJson : Option (List (String × String)) → Json
  | none => .str ""
  | some hs => .obj (hs.map fun p => (p.1, .str p.2))

/-- The `authenticator` wire field: `{type, data}` when present, else the
empty-string sentinel. -/
def authenticatorJson : Option Authenticator → Json
  | none => .str ""
  | some a => .obj [("type", .str a.getType), ("data", a.toJson)]

/-- Models `JSON.stringify` applied to an array of JavaScript values,
keeping the result as a tree. -/
def encodeArr (xs : List JSValue) : Json :=
  .arr (JSValue.encodeElems xs)

/-- One OLD-schema `collectionConfig` array element:
`{collections: [{collection: {name, scopeName, databaseName}}...],
config: <toJson or explicit default>}`.  The default record used when the
stored config is `undefined` spells `documentIDs` (capital IDs) and gives
both filters the value `undefined`, exactly as the source writes it. -/
def oldEntryJS (e : MapEntry) : JSValue :=
  .obj
    [("collections", .arr (e.keyCols.map fun c =>
        .obj [("collection",
               .obj [("name", .str c.name),
                     ("scopeName", .str c.scopeName),
                     ("databaseName", .str c.databaseName)])])),
     ("config",
      match e.value with
      | some cc => cc.toJson
      | none =>
        .obj [("channels", .arr []),
              ("documentIDs", .arr []),
              ("pullFilter", .undef),
              ("pushFilter", .undef)])]

/-- The base wire record with every global field, plus the
`collectionConfig` payload; field order as in the source object literal.
The `collectionConfig` field holds `JSON.stringify` of the per-schema
array; the stringified text is modelled by the encoded tree (rendering a
tree to text is injective, so tree equality is payload equality). -/
def baseRecord (rc : ReplicatorConfiguration) (collCfg : Json) : Json :=
  .obj
    [("acceptParentDomainCookies", .bool rc.acceptParentDomainCookies),
     ("acceptSelfSignedCerts", .bool rc.acceptOnlySelfSignedCerts),
     ("allowReplicationInBackground", .bool rc.allowReplicatingInBackground),
     ("autoPurgeEnabled", .bool rc.autoPurgeEnabled),
     ("authenticator", authenticatorJson rc.authenticator),
     ("collectionConfig", collCfg),
     ("continuous", .bool rc.continuous),
     ("headers", headersJson rc.headers),
     ("heartbeat", .num rc.heartbeat),
     ("maxAttempts", .num rc.maxAttempts),
     ("maxAttemptWaitTime", .num rc.maxAttemptWaitTime),
     ("pinnedServerCertificate", .str (rc.pinnedServerCertificate.getD "")),
     ("replicatorType", .str rc.replicatorType.toWire),
     ("target", rc.target.toJson)]

/-- toJson (`serialize()` of the spec): NEW schema validates the shared
database/scope invariant then emits one record per configuration in
attachment order; OLD schema requires a non-empty map then emits one
record per map entry in insertion order.  On either failure the method
throws having performed no assignment to the instance. -/
def toJson (rc : ReplicatorConfiguration) : Except String Json :=
  if rc.isNewApi then
    if rc.validateCollectionsScopeAndDatabase then
      .ok (rc.baseRecord
        (encodeArr (rc.collectionConfigurations.map
          CollectionConfiguration.toJson)))
    else
      .error "All collections must be from the same database and scope"
  else
    if rc.collectionsMap.isEmpty then
      .error "No collections specified in the configuration. Use addCollection() or addCollections() to add collections."
    else
      .ok (rc.baseRecord (encodeArr (rc.collectionsMap.map oldEntryJS)))

/-- JavaScript truthiness of a possibly-absent string (an absent filter
and the empty string are both falsy). -/
def truthy : Option String → Bool
  | none => false
  | some s => !s.isEmpty

/-- Clone of one NEW-schema configuration (`clone`, NEW branch): a fresh
CollectionConfiguration around the same Collection reference, channels
and document IDs copied by spread, and each truthy filter re-created from
its stored text via `eval` (which round-trips the text). -/
def cloneConfiguration (cfg : CollectionConfiguration) :
    CollectionConfiguration :=
  let c0 := CollectionConfiguration.init cfg.getCollection
  let c1 := c0.setChannels (some cfg.getChannels)
  let c2 := c1.setDocumentIDs (some cfg.getDocumentIDs)
  let c3 :=
    if truthy cfg.getPushFilter then
      c2.setPushFilter (ReplicationFilter.ofText (cfg.getPushFilter.getD ""))
    else c2
  if truthy cfg.getPullFilter then
    c3.setPullFilter (ReplicationFilter.ofText (cfg.getPullFilter.getD ""))
  else c3

/-- Spread (`[...xs]`) of a possibly-null stored list: spreading
`null`/`undefined` throws a TypeError; spreading an array yields a fresh
array with the same elements. -/
def spreadList : Option (List String) → Except String (List String)
  | none => .error "TypeError: spread of non-iterable"
  | some xs => .ok xs

/-- Clone of one OLD-schema CollectionConfig (`clone`, OLD branch):
fresh `CollectionConfig`, channels and document IDs copied by spread
(throwing if a stored list is `null`), truthy filters re-created from
text. -/
def cloneCollectionConfig (cc : CollectionConfig) :
    Except String CollectionConfig := do
  let chans ← spreadList cc.getChannels
  let docIds ← spreadList cc.getDocumentIDs
  let c0 := CollectionConfig.init
  let c1 := c0.setChannels (some chans)
  let c2 := c1.setDocumentIDs (some docIds)
  let c3 :=
    if truthy cc.getPushFilter then
      c2.setPushFilter (ReplicationFilter.ofText (cc.getPushFilter.getD ""))
    else c2
  pure
    (if truthy cc.getPullFilter then
      c3.setPullFilter (ReplicationFilter.ofText (cc.getPullFilter.getD ""))
    else c3)

/-- Replays the OLD-schema map onto a clone: each entry's key array is
copied by spread (a fresh reference, modelled by consuming the clone's
counter) and its config cloned (`undefined` stays `undefined`). -/
def cloneEntries : List MapEntry → Nat →
    Except String (List MapEntry × Nat)
  | [], r => .ok ([], r)
  | e :: rest, r => do
    let v ←
      match e.value with
      | some cc => do
        let c ← cloneCollectionConfig cc
        pure (some c)
      | none => pure (none : Option CollectionConfig)
    let (rest2, r2) ← cloneEntries rest (r + 1)
    pure (⟨r, e.keyCols, v⟩ :: rest2, r2)

/-- The tail of `clone`: the block of setter calls copying every global
field from the source configuration onto the clone, in source order.
`setHeaders({...this.getHeaders()})` spreads the header map into a new
object — the spread of `undefined` is the empty object, so an absent
header map arrives on the clone as a present, empty one.
`setMaxAttemptWaitTime` is the one fallible setter in the block. -/
def copyGlobals (src dst : ReplicatorConfiguration) :
    Except String ReplicatorConfiguration := do
  let d := dst.setContinuous src.getContinuous
  let d := d.setHeaders (some (src.getHeaders.getD []))
  let d := d.setAuthenticator src.getAuthenticator
  let d := d.setPinnedServerCertificate src.getPinnedServerCertificate
  let d := d.setAllowReplicatingInBackground
    src.getAllowReplicatingInBackground
  let d := d.setAutoPurgeEnabled src.getAutoPurgeEnabled
  let d := d.setAcceptParentDomainCookies src.getAcceptParentDomainCookies
  let d := d.setMaxAttempts src.getMaxAttempts
  let d ← d.setMaxAttemptWaitTime src.getMaxAttemptWaitTime
  let d := d.setHeartbeat src.getHeartbeat
  let d := d.setReplicatorType src.getReplicatorType
  pure (d.setAcceptOnlySelfSignedCerts src.getAcceptOnlySelfSignedCerts)

/-- clone: NEW schema rebuilds the configuration list and calls the
NEW-API constructor; OLD schema starts from a target-only instance and
replays the map; both then copy every global field.  A thrown error in a
sub-step propagates. -/
def clone (rc : ReplicatorConfiguration) :
    Except String ReplicatorConfiguration :=
  if rc.isNewApi then
    match mkNew (rc.collectionConfigurations.map cloneConfiguration)
      (some rc.target) with
    | .error e => .error e
    | .ok cloned => copyGlobals rc cloned
  else
    match cloneEntries rc.collectionsMap (mkOld rc.target).nextRef with
    | .error e => .error e
    | .ok (entries, r) =>
      copyGlobals rc
        { mkOld rc.target with collectionsMap := entries, nextRef := r }

end ReplicatorConfiguration

/-! ## Helper definitions for the statements -/

/-- Field lookup in a JSON object (the downstream consumer's view of a
record): `none` for a missing key or a non-object. -/
def Json.getField : Json → String → Option Json
  | .obj fs, k => fs.lookup k
  | _, _ => none

/-- The keys of a JSON object. -/
def Json.keys : Json → List String
  | .obj fs => fs.map Prod.fst
  | _ => []

/-- The JSON encoding of a stored (possibly `null`) string list. -/
def encodedList : Option (List String) → Json
  | none => .null
  | some xs => .arr (xs.map .str)

/-- The spec-side invariant of §3 for a NEW-schema configuration, in the
words of claim C3: every two attached collections share one database
identity and one scope name. -/
def SharesOneScope (rc : ReplicatorConfiguration) : Prop :=
  ∀ c1 ∈ rc.getCollections, ∀ c2 ∈ rc.getCollections,
    c1.databaseName = c2.databaseName ∧ c1.scopeName = c2.scopeName

/-- Concrete fixtures used by witnesses and counterexamples. -/
def colA : Collection := ⟨0, "users", "_default", "db1"⟩
def colB : Collection := ⟨1, "orders", "_default", "db1"⟩
def colC : Collection := ⟨2, "things", "_default", "db2"⟩
def ep : Endpoint := ⟨.str "ws://localhost:4984/db"⟩

/-! ## Helper lemmas -/

theorem encodeElems_strs (xs : List String) :
    JSValue.encodeElems (xs.map .str) = xs.map Json.str := by
  induction xs with
  | nil => rfl
  | cons x xs ih => simp [JSValue.encodeElems, JSValue.encode, ih]

theorem listJS_encode (v : Option (List String)) :
    (CollectionConfig.listJS v).encode = some (encodedList v) := by
  cases v with
  | none => rfl
  | some xs => simp [CollectionConfig.listJS, JSValue.encode, encodedList,
      encodeElems_strs]

theorem mapSet_fresh (m : List MapEntry) (r : Nat)
    (cols : List Collection) (v : Option CollectionConfig)
    (h : ∀ e ∈ m, e.keyRef ≠ r) :
    ReplicatorConfiguration.mapSet m r cols v = m ++ [⟨r, cols, v⟩] := by
  unfold ReplicatorConfiguration.mapSet
  rw [if_neg]
  simp only [List.any_eq_true, beq_iff_eq, not_exists, not_and]
  exact h

theorem validate_true_shares (rc : ReplicatorConfiguration)
    (hnew : rc.isNewApi = true)
    (h : rc.validateCollectionsScopeAndDatabase = true) :
    SharesOneScope rc := by
  intro c1 h1 c2 h2
  unfold ReplicatorConfiguration.getCollections at h1 h2
  rw [hnew] at h1 h2
  simp only [if_true, List.mem_map] at h1 h2
  obtain ⟨g1, hg1, hgc1⟩ := h1
  obtain ⟨g2, hg2, hgc2⟩ := h2
  unfold ReplicatorConfiguration.validateCollectionsScopeAndDatabase at h
  cases hc : rc.collectionConfigurations with
  | nil => rw [hc] at hg1; cases hg1
  | cons c0 rest =>
    rw [hc] at h
    rw [List.all_eq_true] at h
    rw [hc] at hg1 hg2
    have p1 := h g1 hg1
    have p2 := h g2 hg2
    simp only [Bool.and_eq_true, beq_iff_eq] at p1 p2
    subst hgc1 hgc2
    exact ⟨p1.1.trans p2.1.symm, p1.2.trans p2.2.symm⟩

/-! ## Claims -/

/-- C3: for every NEW-schema ReplicatorConfiguration whose attached
collections do not all share one database identity and one scope name,
`toJson` (the spec's `serialize()`) fails with the scope-mismatch error
and emits no payload.  The operation performs no assignment to the
instance (it is embedded as a pure function of the configuration value),
so every other field is unchanged and still queryable after the
failure. -/
theorem toJson_scope_mismatch (rc : ReplicatorConfiguration)
    (hnew : rc.isNewApi = true)
    (hmix : ¬ SharesOneScope rc) :
    rc.toJson =
      .error "All collections must be from the same database and scope" := by
  have hv : rc.validateCollectionsScopeAndDatabase = false := by
    cases hval : rc.validateCollectionsScopeAndDatabase with
    | false => rfl
    | true => exact absurd (validate_true_shares rc hnew hval) hmix
  unfold ReplicatorConfiguration.toJson
  rw [hnew, hv]
  simp

/-- Witness for C3: a NEW-schema configuration holding collections from
databases `db1` and `db2`. -/
theorem toJson_scope_mismatch_witness :
    (ReplicatorConfiguration.mkBase true
      [CollectionConfiguration.init colA, CollectionConfiguration.init colC]
      ep).toJson =
      .error "All collections must be from the same database and scope" :=
  toJson_scope_mismatch _ rfl (by
    intro hs
    have h := hs colA (by decide) colC (by decide)
    exact absurd h.1 (by decide))

/-- C6: every OLD-schema-exclusive mutator or accessor invoked on a
NEW-schema instance fails with the schema-mismatch error; each method
throws before touching any state (the embedding returns `error` with no
successor state, and the caller's configuration value is untouched), so
no partial mutation of the collection structures or any other field
survives. -/
theorem newApi_rejects_old_mutators (rc : ReplicatorConfiguration)
    (c : Collection) (cs : List Collection) (cfg : Option CollectionConfig)
    (hnew : rc.isNewApi = true) :
    rc.addCollection c cfg =
      .error "Cannot call addCollection() on NEW API instance. Collections must be provided at construction." ∧
    rc.addCollections cs cfg =
      .error "Cannot call addCollections() on NEW API instance. Collections must be provided at construction." ∧
    rc.removeCollection c =
      .error "Cannot call removeCollection() on NEW API instance. Collections are immutable." ∧
    rc.removeCollections cs =
      .error "Cannot call removeCollections() on NEW API instance. Collections are immutable." ∧
    rc.getCollectionConfig c =
      .error "Cannot call getCollectionConfig() on NEW API instance. Use getCollectionConfigurations() instead." := by
  refine ⟨?_, ?_, ?_, ?_, ?_⟩ <;>
    simp [ReplicatorConfiguration.addCollection,
      ReplicatorConfiguration.addCollections,
      ReplicatorConfiguration.removeCollection,
      ReplicatorConfiguration.removeCollections,
      ReplicatorConfiguration.getCollectionConfig, hnew]

/-- Witness for C6: the five calls on a concrete NEW-schema instance. -/
theorem newApi_rejects_old_mutators_witness :
    (ReplicatorConfiguration.mkBase true [CollectionConfiguration.init colA]
      ep).isNewApi = true ∧
    ((ReplicatorConfiguration.mkBase true [CollectionConfiguration.init colA]
      ep).addCollection colB none =
      .error "Cannot call addCollection() on NEW API instance. Collections must be provided at construction." ∧
    (ReplicatorConfiguration.mkBase true [CollectionConfiguration.init colA]
      ep).addCollections [colB] none =
      .error "Cannot call addCollections() on NEW API instance. Collections must be provided at construction." ∧
    (ReplicatorConfiguration.mkBase true [CollectionConfiguration.init colA]
      ep).removeCollection colB =
      .error "Cannot call removeCollection() on NEW API instance. Collections are immutable." ∧
    (ReplicatorConfiguration.mkBase true [CollectionConfiguration.init colA]
      ep).removeCollections [colB] =
      .error "Cannot call removeCollections() on NEW API instance. Collections are immutable." ∧
    (ReplicatorConfiguration.mkBase true [CollectionConfiguration.init colA]
      ep).getCollectionConfig colB =
      .error "Cannot call getCollectionConfig() on NEW API instance. Use getCollectionConfigurations() instead.") :=
  ⟨rfl, newApi_rejects_old_mutators _ colB [colB] none rfl⟩

/-- C7: `setMaxAttemptWaitTime(n)` with `n < 0` fails with the
invalid-argument error — the throw happens before the assignment, so the
stored value (for example the default 300) is untouched, which the
embedding expresses by the `error` result carrying no successor state —
while every `n ≥ 0`, including 0, is accepted and stored as given. -/
theorem setMaxAttemptWaitTime_spec (rc : ReplicatorConfiguration) (n : Int) :
    (n < 0 → rc.setMaxAttemptWaitTime n =
      .error "Error:  maxAttemptWaitTime cannot be negative.") ∧
    (0 ≤ n → rc.setMaxAttemptWaitTime n =
      .ok { rc with maxAttemptWaitTime := n }) := by
  constructor
  · intro h
    unfold ReplicatorConfiguration.setMaxAttemptWaitTime
    rw [if_neg (by omega)]
  · intro h
    unfold ReplicatorConfiguration.setMaxAttemptWaitTime
    rw [if_pos (by omega)]

/-- Witness for C7: `-1` is rejected on a fresh OLD-schema configuration
(whose stored value is the default 300), `0` is accepted and stored. -/
theorem setMaxAttemptWaitTime_spec_witness :
    ((-1 : Int) < 0 ∧
      (ReplicatorConfiguration.mkOld ep).setMaxAttemptWaitTime (-1) =
        .error "Error:  maxAttemptWaitTime cannot be negative.") ∧
    ((0 : Int) ≤ 0 ∧
      (ReplicatorConfiguration.mkOld ep).setMaxAttemptWaitTime 0 =
        .ok { ReplicatorConfiguration.mkOld ep with maxAttemptWaitTime := 0 }) :=
  ⟨⟨by decide,
    (setMaxAttemptWaitTime_spec (ReplicatorConfiguration.mkOld ep) (-1)).1
      (by decide)⟩,
   ⟨by decide,
    (setMaxAttemptWaitTime_spec (ReplicatorConfiguration.mkOld ep) 0).2
      (by decide)⟩⟩

/-- C8: on a NEW-schema configuration constructed from a non-empty config
list, `getCollections` returns exactly one collection per attached config
in attachment order, with length equal to the input list length; on an
OLD-schema instance it returns the concatenation of all stored
collection-sets in insertion order of the (reference-distinct) set keys —
in particular a successful `addCollections` appends its set at the end of
the flattened result. -/
theorem getCollections_spec (configs : List CollectionConfiguration)
    (t : Endpoint) (rc rcO rcO2 : ReplicatorConfiguration)
    (cs : List Collection) (cfg : Option CollectionConfig)
    (hmk : ReplicatorConfiguration.mkNew configs (some t) = .ok rc)
    (hold : rcO.isNewApi = false)
    (hwf : ∀ e ∈ rcO.collectionsMap, e.keyRef < rcO.nextRef)
    (hadd : rcO.addCollections cs cfg = .ok rcO2) :
    rc.getCollections = configs.map CollectionConfiguration.getCollection ∧
    rc.getCollections.length = configs.length ∧
    rcO.getCollections = (rcO.collectionsMap.map MapEntry.keyCols).flatten ∧
    rcO2.getCollections = rcO.getCollections ++ cs := by
  have hrc : rc = ReplicatorConfiguration.mkBase true configs t := by
    unfold ReplicatorConfiguration.mkNew at hmk
    by_cases he : configs.isEmpty
    · rw [if_pos he] at hmk; cases hmk
    · rw [if_neg he] at hmk
      injection hmk with h
      exact h.symm
  have hrc2 : rcO2 = { rcO with
      collectionsMap := rcO.collectionsMap ++ [⟨rcO.nextRef, cs, cfg⟩],
      nextRef := rcO.nextRef + 1 } := by
    unfold ReplicatorConfiguration.addCollections at hadd
    rw [if_neg (by rw [hold]; simp)] at hadd
    rw [mapSet_fresh _ _ _ _ (fun e he => Nat.ne_of_lt (hwf e he))] at hadd
    injection hadd with h
    exact h.symm
  refine ⟨?_, ?_, ?_, ?_⟩
  · rw [hrc]
    unfold ReplicatorConfiguration.getCollections
    simp [ReplicatorConfiguration.mkBase]
  · rw [hrc]
    unfold ReplicatorConfiguration.getCollections
    simp [ReplicatorConfiguration.mkBase]
  · simp [ReplicatorConfiguration.getCollections, hold]
  · rw [hrc2]
    simp [ReplicatorConfiguration.getCollections, hold, List.map_append,
      List.flatten_append]

/-- Witness for C8: two configs attached at construction on the NEW
schema; one two-member set added on the OLD schema. -/
theorem getCollections_spec_witness :
    ReplicatorConfiguration.mkNew
      [CollectionConfiguration.init colA, CollectionConfiguration.init colB]
      (some ep) =
      .ok (ReplicatorConfiguration.mkBase true
        [CollectionConfiguration.init colA, CollectionConfiguration.init colB]
        ep) ∧
    (ReplicatorConfiguration.mkOld ep).addCollections [colA, colB] none =
      .ok { ReplicatorConfiguration.mkOld ep with
            collectionsMap := [⟨0, [colA, colB], none⟩], nextRef := 1 } ∧
    ((ReplicatorConfiguration.mkBase true
        [CollectionConfiguration.init colA, CollectionConfiguration.init colB]
        ep).getCollections =
      [CollectionConfiguration.init colA,
       CollectionConfiguration.init colB].map
        CollectionConfiguration.getCollection ∧
     (ReplicatorConfiguration.mkBase true
        [CollectionConfiguration.init colA, CollectionConfiguration.init colB]
        ep).getCollections.length =
      [CollectionConfiguration.init colA,
       CollectionConfiguration.init colB].length ∧
     (ReplicatorConfiguration.mkOld ep).getCollections =
      ((ReplicatorConfiguration.mkOld ep).collectionsMap.map
        MapEntry.keyCols).flatten ∧
     ({ ReplicatorConfiguration.mkOld ep with
        collectionsMap := [⟨0, [colA, colB], none⟩],
        nextRef := 1 } : ReplicatorConfiguration).getCollections =
      (ReplicatorConfiguration.mkOld ep).getCollections ++ [colA, colB]) :=
  ⟨rfl, rfl,
   getCollections_spec _ ep _ _ _ [colA, colB] none rfl rfl (by decide) rfl⟩

/-- C2 counterexample: a default OLD-schema `CollectionConfig` (no filter
ever set) serializes with both filter keys dropped — `toJson` gives them
the value `undefined` and JSON encoding omits such fields — so the claim
that the filter keys are never omitted and absent filters appear as
`null` fails on the OLD schema variant. -/
theorem oldConfig_filters_omitted_cex :
    "pushFilter" ∉ Json.keys ((CollectionConfig.init.toJson).encode.getD .null) ∧
    "pullFilter" ∉ Json.keys ((CollectionConfig.init.toJson).encode.getD .null) := by
  constructor <;> decide

/-- C2 (amended): a NEW-schema `CollectionConfiguration` serializes its
config record with `pushFilter`/`pullFilter` keys always present and
equal to `null` when absent; an OLD-schema `CollectionConfig` gives
absent filters the value `undefined`, so the JSON-encoded record carries
only the `channels` and `documentIds` keys. -/
theorem filter_serialization_spec (cN : CollectionConfiguration)
    (cO : CollectionConfig)
    (hN1 : cN.pushFilter = none) (hN2 : cN.pullFilter = none)
    (hO1 : cO.pushFilter = none) (hO2 : cO.pullFilter = none) :
    cN.toJson.encode = some (.obj
      [("collection", .obj [("name", .str cN.collection.name),
                            ("scopeName", .str cN.collection.scopeName),
                            ("databaseName", .str cN.collection.databaseName)]),
       ("config", .obj
         [("channels", .arr (cN.channels.map .str)),
          ("documentIds", .arr (cN.documentIds.map .str)),
          ("pushFilter", .null),
          ("pullFilter", .null)])]) ∧
    cO.toJson.encode = some (.obj
      [("channels", encodedList cO.channels),
       ("documentIds", encodedList cO.documentIDs)]) := by
  constructor
  · simp [CollectionConfiguration.toJson, Collection.toJson, Json.toJS,
      Json.toJSFields, CollectionConfiguration.filterJS, hN1, hN2,
      JSValue.encode, JSValue.encodeFields, encodeElems_strs]
  · simp [CollectionConfig.toJson, CollectionConfig.filterJS, hO1, hO2,
      JSValue.encode, JSValue.encodeFields, listJS_encode]

/-- Witness for C2 (amended): freshly constructed configs of both
variants. -/
theorem filter_serialization_spec_witness :
    (CollectionConfiguration.init colA).pushFilter = none ∧
    ((CollectionConfiguration.init colA).toJson.encode = some (.obj
      [("collection", .obj [("name", .str (CollectionConfiguration.init colA).collection.name),
                            ("scopeName", .str (CollectionConfiguration.init colA).collection.scopeName),
                            ("databaseName", .str (CollectionConfiguration.init colA).collection.databaseName)]),
       ("config", .obj
         [("channels", .arr ((CollectionConfiguration.init colA).channels.map .str)),
          ("documentIds", .arr ((CollectionConfiguration.init colA).documentIds.map .str)),
          ("pushFilter", .null),
          ("pullFilter", .null)])]) ∧
    CollectionConfig.init.toJson.encode = some (.obj
      [("channels", encodedList CollectionConfig.init.channels),
       ("documentIds", encodedList CollectionConfig.init.documentIDs)])) :=
  ⟨rfl, filter_serialization_spec (CollectionConfiguration.init colA)
    CollectionConfig.init rfl rfl rfl rfl⟩

/-- C4 counterexample: on the OLD-schema `CollectionConfig`,
`setChannels(null)` stores `null` as given, so the subsequent
`getChannels` returns `null` and not the empty list the claim
promises. -/
theorem oldConfig_setChannels_null_cex :
    ¬ ((CollectionConfig.init.setChannels none).getChannels = some []) := by
  simp [CollectionConfig.setChannels, CollectionConfig.getChannels]

/-- C4 (amended): neither setter ever throws (both are total); the
NEW-schema `CollectionConfiguration` collapses a `null`/absent argument
to the empty list, while the OLD-schema `CollectionConfig` stores the
argument exactly as given — so only on the NEW schema does a subsequent
get return the empty list. -/
theorem setChannels_null_spec (cN : CollectionConfiguration)
    (cO : CollectionConfig) (v : Option (List String)) :
    (cN.setChannels none).getChannels = [] ∧
    (cN.setDocumentIDs none).getDocumentIDs = [] ∧
    (cO.setChannels v).getChannels = v ∧
    (cO.setDocumentIDs v).getDocumentIDs = v :=
  ⟨rfl, rfl, rfl, rfl⟩

/-- C1, evaluated at the failing input: after
`addCollections([A, B], cfg)` on an OLD-schema configuration,
`removeCollection(A)` returns with the map entry `[A, B]` completely
unchanged — the filtered copy `[B]` is computed by the source but never
stored back — so `A` is still replicated; the spec instead requires the
entry to be replaced by the filtered copy without `A`. -/
theorem removeCollection_multi_member_noop :
    (((ReplicatorConfiguration.mkOld ep).addCollections [colA, colB]
        (some CollectionConfig.init)).bind
      (fun rc => rc.removeCollection colA)) =
    ((ReplicatorConfiguration.mkOld ep).addCollections [colA, colB]
      (some CollectionConfig.init)) ∧
    ((((ReplicatorConfiguration.mkOld ep).addCollections [colA, colB]
        (some CollectionConfig.init)).bind
      (fun rc => rc.removeCollection colA)).map
        ReplicatorConfiguration.getCollections = .ok [colA, colB]) :=
  ⟨rfl, rfl⟩

/-- C10: on an OLD-schema configuration, two `addCollection` calls with
the same Collection object create two distinct map entries — `Map.set` is
keyed by the array reference and each call passes a freshly created
singleton array, so entries are never merged, replaced or deduplicated by
collection identity; consequently `getCollections` returns the collection
once per entry and `toJson` emits one `collectionConfig` record per
entry.  (`hwf` says every existing key reference predates the allocation
counter, which holds for every configuration built by the class's own
operations.) -/
theorem addCollection_never_merges (rc : ReplicatorConfiguration)
    (c : Collection) (cfg1 cfg2 : Option CollectionConfig)
    (hold : rc.isNewApi = false)
    (hwf : ∀ e ∈ rc.collectionsMap, e.keyRef < rc.nextRef) :
    ((rc.addCollection c cfg1).bind fun r =>
        r.addCollection c cfg2) =
      .ok { rc with
        collectionsMap := rc.collectionsMap ++
          [⟨rc.nextRef, [c], cfg1⟩, ⟨rc.nextRef + 1, [c], cfg2⟩],
        nextRef := rc.nextRef + 2 } ∧
    ({ rc with
        collectionsMap := rc.collectionsMap ++
          [⟨rc.nextRef, [c], cfg1⟩, ⟨rc.nextRef + 1, [c], cfg2⟩],
        nextRef := rc.nextRef + 2 } :
      ReplicatorConfiguration).getCollections =
      rc.getCollections ++ [c, c] ∧
    ({ rc with
        collectionsMap := rc.collectionsMap ++
          [⟨rc.nextRef, [c], cfg1⟩, ⟨rc.nextRef + 1, [c], cfg2⟩],
        nextRef := rc.nextRef + 2 } :
      ReplicatorConfiguration).toJson =
      .ok (({ rc with
        collectionsMap := rc.collectionsMap ++
          [⟨rc.nextRef, [c], cfg1⟩, ⟨rc.nextRef + 1, [c], cfg2⟩],
        nextRef := rc.nextRef + 2 } :
        ReplicatorConfiguration).baseRecord
        (ReplicatorConfiguration.encodeArr
          ((rc.collectionsMap ++
            ([⟨rc.nextRef, [c], cfg1⟩,
              ⟨rc.nextRef + 1, [c], cfg2⟩] : List MapEntry)).map
            ReplicatorConfiguration.oldEntryJS))) := by
  have h1 : rc.addCollection c cfg1 = .ok { rc with
      collectionsMap := rc.collectionsMap ++
        [(⟨rc.nextRef, [c], cfg1⟩ : MapEntry)],
      nextRef := rc.nextRef + 1 } := by
    unfold ReplicatorConfiguration.addCollection
    rw [if_neg (by rw [hold]; simp)]
    rw [mapSet_fresh _ _ _ _ (fun e he => Nat.ne_of_lt (hwf e he))]
  have hwf2 : ∀ e ∈ rc.collectionsMap ++
      [(⟨rc.nextRef, [c], cfg1⟩ : MapEntry)],
      MapEntry.keyRef e ≠ rc.nextRef + 1 := by
    intro e he
    rcases List.mem_append.mp he with h | h
    · exact Nat.ne_of_lt (Nat.lt_succ_of_lt (hwf e h))
    · simp only [List.mem_singleton] at h
      subst h
      show rc.nextRef ≠ rc.nextRef + 1
      omega
  have h2 : ({ rc with
      collectionsMap := rc.collectionsMap ++
        [(⟨rc.nextRef, [c], cfg1⟩ : MapEntry)],
      nextRef := rc.nextRef + 1 } :
      ReplicatorConfiguration).addCollection c cfg2 = .ok { rc with
      collectionsMap := rc.collectionsMap ++
        [⟨rc.nextRef, [c], cfg1⟩, ⟨rc.nextRef + 1, [c], cfg2⟩],
      nextRef := rc.nextRef + 2 } := by
    unfold ReplicatorConfiguration.addCollection
    rw [if_neg (by simp [hold])]
    rw [mapSet_fresh _ _ _ _ hwf2]
    simp
  have hne : (rc.collectionsMap ++
      [(⟨rc.nextRef, [c], cfg1⟩ : MapEntry),
       (⟨rc.nextRef + 1, [c], cfg2⟩ : MapEntry)]).isEmpty =
      false := by
    cases rc.collectionsMap <;> rfl
  refine ⟨?_, ?_, ?_⟩
  · rw [h1]
    simp only [Except.bind]
    exact h2
  · simp [ReplicatorConfiguration.getCollections, hold, List.map_append,
      List.flatten_append]
  · unfold ReplicatorConfiguration.toJson
    rw [if_neg (by simp [hold])]
    rw [if_neg (by simp [hne])]

/-- Witness for C10: the same collection object added twice on a fresh
OLD-schema configuration. -/
theorem addCollection_never_merges_witness :
    (ReplicatorConfiguration.mkOld ep).isNewApi = false ∧
    ((((ReplicatorConfiguration.mkOld ep).addCollection colA none).bind
        fun r => r.addCollection colA (some CollectionConfig.init)) =
      .ok { ReplicatorConfiguration.mkOld ep with
        collectionsMap :=
          [⟨0, [colA], none⟩, ⟨1, [colA], some CollectionConfig.init⟩],
        nextRef := 2 } ∧
    ({ ReplicatorConfiguration.mkOld ep with
        collectionsMap :=
          [⟨0, [colA], none⟩, ⟨1, [colA], some CollectionConfig.init⟩],
        nextRef := 2 } :
      ReplicatorConfiguration).getCollections =
      (ReplicatorConfiguration.mkOld ep).getCollections ++ [colA, colA] ∧
    ({ ReplicatorConfiguration.mkOld ep with
        collectionsMap :=
          [⟨0, [colA], none⟩, ⟨1, [colA], some CollectionConfig.init⟩],
        nextRef := 2 } :
      ReplicatorConfiguration).toJson =
      .ok (({ ReplicatorConfiguration.mkOld ep with
        collectionsMap :=
          [⟨0, [colA], none⟩, ⟨1, [colA], some CollectionConfig.init⟩],
        nextRef := 2 } :
        ReplicatorConfiguration).baseRecord
        (ReplicatorConfiguration.encodeArr
          (([⟨0, [colA], none⟩,
             ⟨1, [colA], some CollectionConfig.init⟩] : List MapEntry).map
            ReplicatorConfiguration.oldEntryJS)))) :=
  ⟨rfl, addCollection_never_merges (ReplicatorConfiguration.mkOld ep) colA
    none (some CollectionConfig.init) rfl (by decide)⟩

/-- Closed form of the final setter block of `clone`: it succeeds exactly
when the source's stored wait time is non-negative (always true for a
reachable configuration) and then determines every global field from the
source while leaving the collection structures and target of its input
untouched. -/
theorem copyGlobals_eq (src dst : ReplicatorConfiguration) :
    ReplicatorConfiguration.copyGlobals src dst =
      if 0 ≤ src.maxAttemptWaitTime then
        .ok { dst with
          continuous := src.continuous,
          headers := some (src.headers.getD []),
          authenticator := src.authenticator,
          pinnedServerCertificate := src.pinnedServerCertificate,
          allowReplicatingInBackground := src.allowReplicatingInBackground,
          autoPurgeEnabled := src.autoPurgeEnabled,
          acceptParentDomainCookies := src.acceptParentDomainCookies,
          maxAttempts := src.maxAttempts,
          maxAttemptWaitTime := src.maxAttemptWaitTime,
          heartbeat := src.heartbeat,
          replicatorType := src.replicatorType,
          acceptOnlySelfSignedCerts := src.acceptOnlySelfSignedCerts }
      else .error "Error:  maxAttemptWaitTime cannot be negative." := by
  cases dst
  simp only [ReplicatorConfiguration.copyGlobals,
    ReplicatorConfiguration.setContinuous, ReplicatorConfiguration.setHeaders,
    ReplicatorConfiguration.setAuthenticator,
    ReplicatorConfiguration.setPinnedServerCertificate,
    ReplicatorConfiguration.setAllowReplicatingInBackground,
    ReplicatorConfiguration.setAutoPurgeEnabled,
    ReplicatorConfiguration.setAcceptParentDomainCookies,
    ReplicatorConfiguration.setMaxAttempts,
    ReplicatorConfiguration.setMaxAttemptWaitTime,
    ReplicatorConfiguration.setHeartbeat,
    ReplicatorConfiguration.setReplicatorType,
    ReplicatorConfiguration.setAcceptOnlySelfSignedCerts,
    ReplicatorConfiguration.getContinuous, ReplicatorConfiguration.getHeaders,
    ReplicatorConfiguration.getAuthenticator,
    ReplicatorConfiguration.getPinnedServerCertificate,
    ReplicatorConfiguration.getAllowReplicatingInBackground,
    ReplicatorConfiguration.getAutoPurgeEnabled,
    ReplicatorConfiguration.getAcceptParentDomainCookies,
    ReplicatorConfiguration.getMaxAttempts,
    ReplicatorConfiguration.getMaxAttemptWaitTime,
    ReplicatorConfiguration.getHeartbeat,
    ReplicatorConfiguration.getReplicatorType,
    ReplicatorConfiguration.getAcceptOnlySelfSignedCerts,
    bind, Except.bind]
  split
  next err heq =>
    split at heq
    next => cases heq
    next hneg =>
      injection heq with heq
      subst heq
      rw [if_neg (by simpa using hneg)]
  next v heq =>
    split at heq
    next hpos =>
      injection heq with heq
      subst heq
      rw [if_pos (by simpa using hpos)]
      rfl
    next => cases heq

/-- Field view of `copyGlobals_eq` on a successful run. -/
theorem copyGlobals_fields (src dst d : ReplicatorConfiguration)
    (h : ReplicatorConfiguration.copyGlobals src dst = .ok d) :
    d.isNewApi = dst.isNewApi ∧
    d.collectionConfigurations = dst.collectionConfigurations ∧
    d.collectionsMap = dst.collectionsMap ∧
    d.target = dst.target ∧
    d.continuous = src.continuous ∧
    d.headers = some (src.headers.getD []) ∧
    d.authenticator = src.authenticator ∧
    d.pinnedServerCertificate = src.pinnedServerCertificate ∧
    d.allowReplicatingInBackground = src.allowReplicatingInBackground ∧
    d.autoPurgeEnabled = src.autoPurgeEnabled ∧
    d.acceptParentDomainCookies = src.acceptParentDomainCookies ∧
    d.maxAttempts = src.maxAttempts ∧
    d.maxAttemptWaitTime = src.maxAttemptWaitTime ∧
    d.heartbeat = src.heartbeat ∧
    d.replicatorType = src.replicatorType ∧
    d.acceptOnlySelfSignedCerts = src.acceptOnlySelfSignedCerts := by
  rw [copyGlobals_eq] at h
  split at h
  · injection h with h
    subst h
    refine ⟨rfl, rfl, rfl, rfl, rfl, rfl, rfl, rfl, rfl, rfl, rfl, rfl, rfl,
      rfl, rfl, rfl⟩
  · cases h

/-- A successful `clone` ends in a successful `copyGlobals` from the
source onto an intermediate configuration that carries the source's
target. -/
theorem clone_ok_copyGlobals (rc rc2 : ReplicatorConfiguration)
    (h : rc.clone = .ok rc2) :
    ∃ dst, ReplicatorConfiguration.copyGlobals rc dst = .ok rc2 ∧
      dst.target = rc.target := by
  unfold ReplicatorConfiguration.clone at h
  split at h
  · split at h
    · cases h
    · rename_i cloned hm
      refine ⟨cloned, h, ?_⟩
      unfold ReplicatorConfiguration.mkNew at hm
      split at hm
      · cases hm
      · injection hm with hm
        rw [← hm]
        rfl
  · split at h
    · cases h
    · exact ⟨_, h, rfl⟩

/-- Lookup of a key `k` in two association lists that agree everywhere
except at the (single) occurrence of a different key gives the same
result. -/
theorem lookup_skip_key (k key : String) (va vb : Json)
    (pre post : List (String × Json)) (hk : ¬ (k = key)) :
    (pre ++ (key, va) :: post).lookup k =
      (pre ++ (key, vb) :: post).lookup k := by
  induction pre with
  | nil =>
    have hbeq : (k == key) = false := by
      simp [hk]
    simp [List.lookup, hbeq]
  | cons p ps ih =>
    obtain ⟨pk, pv⟩ := p
    simp only [List.cons_append, List.lookup]
    cases hpk : k == pk
    · simpa using ih
    · rfl

/-- C5 counterexample: a NEW-schema configuration whose headers were
never set.  `clone` spreads the absent header map into a fresh object, so
the clone holds an empty header map where the original holds none; the
original then serializes `headers` as the empty-string sentinel while the
clone serializes it as an empty object — the clone does not serialize the
same global-field values as the original. -/
theorem clone_headers_mismatch_cex :
    ReplicatorConfiguration.mkNew [CollectionConfiguration.init colA]
      (some ep) =
      .ok (ReplicatorConfiguration.mkBase true
        [CollectionConfiguration.init colA] ep) ∧
    (ReplicatorConfiguration.mkBase true [CollectionConfiguration.init colA]
      ep).getHeaders = none ∧
    (ReplicatorConfiguration.mkBase true [CollectionConfiguration.init colA]
      ep).clone =
      .ok { ReplicatorConfiguration.mkBase true
        [CollectionConfiguration.init colA] ep with headers := some [] } ∧
    (ReplicatorConfiguration.mkBase true [CollectionConfiguration.init colA]
      ep).toJson.map (fun j => j.getField "headers") =
      .ok (some (.str "")) ∧
    ({ ReplicatorConfiguration.mkBase true [CollectionConfiguration.init colA]
      ep with headers := some [] } :
      ReplicatorConfiguration).toJson.map (fun j => j.getField "headers") =
      .ok (some (.obj [])) ∧
    some (Json.str "") ≠ some (Json.obj []) := by
  refine ⟨rfl, rfl, rfl, rfl, rfl, ?_⟩
  intro h
  injection h with h
  cases h

/-- C5 (amended): `clone` copies every global policy field verbatim —
direction, continuity, heartbeat, max attempts, max-attempt wait time,
authenticator, pinned certificate and all four boolean flags — except the
header map, which is spread-copied into a fresh object so that an absent
header map becomes a present empty one on the clone; consequently, when
the original's headers were set, the clone serializes the same value as
the original for every global wire field (every field other than
`collectionConfig`). -/
theorem clone_globals_spec (rc rc2 : ReplicatorConfiguration)
    (h : rc.clone = .ok rc2) :
    rc2.getReplicatorType = rc.getReplicatorType ∧
    rc2.getContinuous = rc.getContinuous ∧
    rc2.getHeartbeat = rc.getHeartbeat ∧
    rc2.getMaxAttempts = rc.getMaxAttempts ∧
    rc2.getMaxAttemptWaitTime = rc.getMaxAttemptWaitTime ∧
    rc2.getAuthenticator = rc.getAuthenticator ∧
    rc2.getPinnedServerCertificate = rc.getPinnedServerCertificate ∧
    rc2.getAllowReplicatingInBackground =
      rc.getAllowReplicatingInBackground ∧
    rc2.getAcceptOnlySelfSignedCerts = rc.getAcceptOnlySelfSignedCerts ∧
    rc2.getAutoPurgeEnabled = rc.getAutoPurgeEnabled ∧
    rc2.getAcceptParentDomainCookies = rc.getAcceptParentDomainCookies ∧
    rc2.getHeaders = some (rc.getHeaders.getD []) ∧
    (∀ hs j j2, rc.getHeaders = some hs → rc.toJson = .ok j →
      rc2.toJson = .ok j2 → ∀ k, ¬ (k = "collectionConfig") →
        j2.getField k = j.getField k) := by
  obtain ⟨dst, hcg, htgt⟩ := clone_ok_copyGlobals rc rc2 h
  obtain ⟨_, _, _, htg, hco, hhd, hau, hpc, hbg, hap, hpd, hma, hmw, hhb,
    hrt, hsc⟩ := copyGlobals_fields rc dst rc2 hcg
  refine ⟨hrt, hco, hhb, hma, hmw, hau, hpc, hbg, hsc, hap, hpd, hhd, ?_⟩
  intro hs j j2 hhs hj hj2 k hk
  obtain ⟨cc, hcc⟩ : ∃ cc, j = rc.baseRecord cc := by
    unfold ReplicatorConfiguration.toJson at hj
    split at hj
    · split at hj
      · injection hj with hj
        exact ⟨_, hj.symm⟩
      · cases hj
    · split at hj
      · cases hj
      · injection hj with hj
        exact ⟨_, hj.symm⟩
  obtain ⟨cc2, hcc2⟩ : ∃ cc2, j2 = rc2.baseRecord cc2 := by
    unfold ReplicatorConfiguration.toJson at hj2
    split at hj2
    · split at hj2
      · injection hj2 with hj2
        exact ⟨_, hj2.symm⟩
      · cases hj2
    · split at hj2
      · cases hj2
      · injection hj2 with hj2
        exact ⟨_, hj2.symm⟩
  subst hcc hcc2
  have hhd2 : rc2.headers = rc.headers := by
    rw [hhd]
    rw [ReplicatorConfiguration.getHeaders] at hhs
    rw [hhs]
    rfl
  unfold ReplicatorConfiguration.baseRecord Json.getField
  rw [hco, hhd2, hau, hpc, hbg, hap, hpd, hma, hmw, hhb, hrt, hsc,
    htg.trans htgt]
  exact lookup_skip_key k "collectionConfig" cc2 cc
    [("acceptParentDomainCookies", .bool rc.acceptParentDomainCookies),
     ("acceptSelfSignedCerts", .bool rc.acceptOnlySelfSignedCerts),
     ("allowReplicationInBackground", .bool rc.allowReplicatingInBackground),
     ("autoPurgeEnabled", .bool rc.autoPurgeEnabled),
     ("authenticator",
      ReplicatorConfiguration.authenticatorJson rc.authenticator)]
    [("continuous", .bool rc.continuous),
     ("headers", ReplicatorConfiguration.headersJson rc.headers),
     ("heartbeat", .num rc.heartbeat),
     ("maxAttempts", .num rc.maxAttempts),
     ("maxAttemptWaitTime", .num rc.maxAttemptWaitTime),
     ("pinnedServerCertificate", .str (rc.pinnedServerCertificate.getD "")),
     ("replicatorType", .str rc.replicatorType.toWire),
     ("target", rc.target.toJson)] hk

/-- Witness for C5 (amended): a NEW-schema configuration with headers
set, cloned. -/
theorem clone_globals_spec_witness :
    ((ReplicatorConfiguration.mkBase true [CollectionConfiguration.init colA]
        ep).setHeaders (some [("X-Client", "cbl")])).clone =
      .ok (({ ReplicatorConfiguration.mkBase true
        [CollectionConfiguration.init colA] ep
        with headers := some [("X-Client", "cbl")] } :
        ReplicatorConfiguration)) ∧
    (({ ReplicatorConfiguration.mkBase true
        [CollectionConfiguration.init colA] ep
        with headers := some [("X-Client", "cbl")] } :
        ReplicatorConfiguration).getHeaders =
      some ((((ReplicatorConfiguration.mkBase true
        [CollectionConfiguration.init colA] ep).setHeaders
          (some [("X-Client", "cbl")])).getHeaders).getD [])) :=
  ⟨rfl,
   (clone_globals_spec
     ((ReplicatorConfiguration.mkBase true [CollectionConfiguration.init colA]
        ep).setHeaders (some [("X-Client", "cbl")]))
     ({ ReplicatorConfiguration.mkBase true
        [CollectionConfiguration.init colA] ep
        with headers := some [("X-Client", "cbl")] } :
        ReplicatorConfiguration) rfl).2.2.2.2.2.2.2.2.2.2.2.1⟩

/-! ## Reference-level model of the list copies in `clone` (for C9)

`clone` copies the per-collection channel and document-ID lists with
array spreads — `cloned.setChannels([...config.getChannels()])` and
`cloned.setDocumentIDs([...config.getDocumentIDs()])` — in its NEW-schema
branch, and the identical pair of statements per map entry in its
OLD-schema branch.  A spread allocates a fresh array object.  To state
that the copies are independent of the originals under mutation, arrays
are modelled at the reference level: a heap of string arrays addressed by
allocation index, and a config as the pair of references it holds. -/

/-- A heap of JavaScript string arrays; a reference is an index into
`arrays`. -/
structure Heap where
  arrays : List (List String)

/-- Number of allocated arrays; every live reference is below it. -/
def Heap.size (h : Heap) : Nat := h.arrays.length

/-- Dereference (reads of live references only; a dangling reference
defaults to the empty array). -/
def Heap.read (h : Heap) (r : Nat) : List String := h.arrays.getD r []

/-- In-place mutation of the array behind reference `r` (models pushing
to / reassigning the contents of a JavaScript array). -/
def Heap.write (h : Heap) (r : Nat) (xs : List String) : Heap :=
  ⟨h.arrays.set r xs⟩

/-- Allocation of a fresh array (what an array spread does): returns the
grown heap and the fresh reference. -/
def Heap.alloc (h : Heap) (xs : List String) : Heap × Nat :=
  (⟨h.arrays ++ [xs]⟩, h.arrays.length)

/-- The two mutable list fields of one per-collection config at the
reference level (NEW-schema `CollectionConfiguration._channels` /
`_documentIds`, OLD-schema `CollectionConfig.channels` /
`documentIDs`). -/
structure RefConfig where
  channelsRef : Nat
  documentIdsRef : Nat
deriving DecidableEq, Repr

/-- The two spread-copies `clone` performs for one config (source lines
657–658, NEW schema, and 691–692, OLD schema): read the original's
channels, allocate a fresh copy, read the original's document IDs,
allocate a fresh copy; the cloned config holds the two fresh
references. -/
def cloneRefConfig (h : Heap) (c : RefConfig) : Heap × RefConfig :=
  let a1 := h.alloc (h.read c.channelsRef)
  let a2 := a1.1.alloc (a1.1.read c.documentIdsRef)
  (a2.1, ⟨a1.2, a2.2⟩)

/-- `clone`'s traversal of the attached configs (the `map` over
`collectionConfigurations` on the NEW schema, the entry loop on the OLD
schema), restricted to its list-copying effect. -/
def cloneRefConfigs (h : Heap) : List RefConfig → Heap × List RefConfig
  | [] => (h, [])
  | c :: cs =>
    let p := cloneRefConfig h c
    let q := cloneRefConfigs p.1 cs
    (q.1, p.2 :: q.2)

theorem getD_set_ne {α : Type} (l : List α) (d : α) (r r' : Nat) (x : α)
    (hne : r' ≠ r) : (l.set r x).getD r' d = l.getD r' d := by
  induction l generalizing r r' with
  | nil => simp
  | cons a as ih =>
    cases r with
    | zero =>
      cases r' with
      | zero => exact absurd rfl hne
      | succ m => simp
    | succ n =>
      cases r' with
      | zero => simp
      | succ m => simpa using ih n m (fun hh => hne (by rw [hh]))

theorem Heap.read_write_ne (h : Heap) (r r' : Nat) (xs : List String)
    (hne : r' ≠ r) : (h.write r xs).read r' = h.read r' :=
  getD_set_ne h.arrays [] r r' xs hne

theorem Heap.read_alloc_lt (h : Heap) (xs : List String) (r : Nat)
    (hr : r < h.size) : (h.alloc xs).1.read r = h.read r :=
  List.getD_append h.arrays [xs] [] r hr

theorem Heap.read_alloc_self (h : Heap) (xs : List String) :
    (h.alloc xs).1.read h.size = xs := by
  unfold Heap.alloc Heap.read Heap.size
  rw [List.getD_append_right h.arrays [xs] [] h.arrays.length (le_refl _)]
  simp

theorem Heap.alloc_size (h : Heap) (xs : List String) :
    (h.alloc xs).1.size = h.size + 1 := by
  simp [Heap.alloc, Heap.size]

theorem cloneRefConfig_refs (h : Heap) (c : RefConfig) :
    (cloneRefConfig h c).2.channelsRef = h.size ∧
    (cloneRefConfig h c).2.documentIdsRef = h.size + 1 ∧
    (cloneRefConfig h c).1.size = h.size + 2 := by
  refine ⟨rfl, ?_, ?_⟩ <;> simp [cloneRefConfig, Heap.alloc, Heap.size]

theorem cloneRefConfig_read_lt (h : Heap) (c : RefConfig) (r : Nat)
    (hr : r < h.size) : (cloneRefConfig h c).1.read r = h.read r := by
  unfold cloneRefConfig
  rw [Heap.read_alloc_lt _ _ _ (by rw [Heap.alloc_size]; omega)]
  exact Heap.read_alloc_lt h _ r hr

theorem cloneRefConfig_copies_channels (h : Heap) (c : RefConfig) :
    (cloneRefConfig h c).1.read (cloneRefConfig h c).2.channelsRef =
      h.read c.channelsRef := by
  show ((h.alloc (h.read c.channelsRef)).1.alloc _).1.read h.size = _
  rw [Heap.read_alloc_lt _ _ _ (by rw [Heap.alloc_size]; omega)]
  exact Heap.read_alloc_self h _

theorem cloneRefConfig_copies_docIds (h : Heap) (c : RefConfig)
    (h2 : c.documentIdsRef < h.size) :
    (cloneRefConfig h c).1.read (cloneRefConfig h c).2.documentIdsRef =
      h.read c.documentIdsRef := by
  show ((h.alloc (h.read c.channelsRef)).1.alloc _).1.read
    (h.alloc (h.read c.channelsRef)).1.size = _
  rw [Heap.read_alloc_self]
  exact Heap.read_alloc_lt h _ _ (by omega)

theorem cloneRefConfigs_spec (cs : List RefConfig) (h : Heap) :
    h.size ≤ (cloneRefConfigs h cs).1.size ∧
    (∀ r, r < h.size → (cloneRefConfigs h cs).1.read r = h.read r) ∧
    (cloneRefConfigs h cs).2.length = cs.length ∧
    (∀ p ∈ (cloneRefConfigs h cs).2.zip cs,
      h.size ≤ p.1.channelsRef ∧ h.size ≤ p.1.documentIdsRef ∧
      p.1.channelsRef < (cloneRefConfigs h cs).1.size ∧
      p.1.documentIdsRef < (cloneRefConfigs h cs).1.size ∧
      (p.2.channelsRef < h.size →
        (cloneRefConfigs h cs).1.read p.1.channelsRef =
          h.read p.2.channelsRef) ∧
      (p.2.documentIdsRef < h.size →
        (cloneRefConfigs h cs).1.read p.1.documentIdsRef =
          h.read p.2.documentIdsRef)) := by
  induction cs generalizing h with
  | nil => simp [cloneRefConfigs]
  | cons c cs ih =>
    obtain ⟨iha, ihb, ihc, ihd⟩ := ih (cloneRefConfig h c).1
    obtain ⟨hch, hdoc, hsz⟩ := cloneRefConfig_refs h c
    have hstep : ∀ r, r < h.size →
        (cloneRefConfigs (cloneRefConfig h c).1 cs).1.read r = h.read r := by
      intro r hr
      rw [ihb r (by omega), cloneRefConfig_read_lt h c r hr]
    refine ⟨?_, ?_, ?_, ?_⟩
    · simp only [cloneRefConfigs]
      omega
    · intro r hr
      simpa only [cloneRefConfigs] using hstep r hr
    · simp [cloneRefConfigs, ihc]
    · intro p hp
      simp only [cloneRefConfigs, List.zip_cons_cons, List.mem_cons] at hp ⊢
      rcases hp with hp | hp
      · subst hp
        dsimp only
        refine ⟨by omega, by omega, by omega, by omega, ?_, ?_⟩
        · intro _
          rw [ihb _ (by omega)]
          exact cloneRefConfig_copies_channels h c
        · intro hlt
          rw [ihb _ (by omega)]
          exact cloneRefConfig_copies_docIds h c hlt
      · obtain ⟨ha1, ha2, ha3, ha4, ha5, ha6⟩ := ihd p hp
        refine ⟨by omega, by omega, by omega, by omega, ?_, ?_⟩
        · intro hlt
          have := ha5 (by omega)
          rw [cloneRefConfig_read_lt h c _ hlt] at this
          exact this
        · intro hlt
          have := ha6 (by omega)
          rw [cloneRefConfig_read_lt h c _ hlt] at this
          exact this

/-- C9: for a heap of per-collection channel and document-ID arrays and
the configs attached to a configuration of either schema (every attached
config's references are live), `clone`'s list-copying pass produces one
cloned config per original whose arrays hold the same contents, and whose
references are fresh: writing through any cloned config's channel or
document-ID reference leaves every original config's arrays unchanged,
and writing through any original reference leaves every cloned config's
arrays unchanged. -/
theorem clone_lists_independent (h : Heap) (cs : List RefConfig)
    (hv : ∀ c ∈ cs, c.channelsRef < h.size ∧ c.documentIdsRef < h.size) :
    (cloneRefConfigs h cs).2.length = cs.length ∧
    ∀ p ∈ (cloneRefConfigs h cs).2.zip cs,
      ((cloneRefConfigs h cs).1.read p.1.channelsRef =
        h.read p.2.channelsRef ∧
       (cloneRefConfigs h cs).1.read p.1.documentIdsRef =
        h.read p.2.documentIdsRef) ∧
      ∀ q ∈ cs, ∀ xs,
        ((cloneRefConfigs h cs).1.write p.1.channelsRef xs).read
            q.channelsRef =
          (cloneRefConfigs h cs).1.read q.channelsRef ∧
        ((cloneRefConfigs h cs).1.write p.1.documentIdsRef xs).read
            q.documentIdsRef =
          (cloneRefConfigs h cs).1.read q.documentIdsRef ∧
        ((cloneRefConfigs h cs).1.write q.channelsRef xs).read
            p.1.channelsRef =
          (cloneRefConfigs h cs).1.read p.1.channelsRef ∧
        ((cloneRefConfigs h cs).1.write q.documentIdsRef xs).read
            p.1.documentIdsRef =
          (cloneRefConfigs h cs).1.read p.1.documentIdsRef := by
  obtain ⟨hsz, hpre, hlen, hspec⟩ := cloneRefConfigs_spec cs h
  refine ⟨hlen, ?_⟩
  intro p hp
  obtain ⟨p1, p2⟩ := p
  obtain ⟨hb1, hb2, hb3, hb4, hc5, hc6⟩ := hspec (p1, p2) hp
  dsimp only at hb1 hb2 hb3 hb4 hc5 hc6 ⊢
  obtain ⟨hvmem1, hvmem2⟩ := List.of_mem_zip hp
  obtain ⟨hvc1, hvc2⟩ := hv p2 hvmem2
  refine ⟨⟨hc5 hvc1, hc6 hvc2⟩, ?_⟩
  intro q hq xs
  obtain ⟨hq1, hq2⟩ := hv q hq
  exact ⟨Heap.read_write_ne _ _ _ _ (by omega),
         Heap.read_write_ne _ _ _ _ (by omega),
         Heap.read_write_ne _ _ _ _ (by omega),
         Heap.read_write_ne _ _ _ _ (by omega)⟩

/-- Witness for C9: one config whose channel array is `["public"]` and
whose document-ID array is `["doc1"]`. -/
theorem clone_lists_independent_witness :
    (∀ c ∈ ([⟨0, 1⟩] : List RefConfig),
      c.channelsRef < (Heap.mk [["public"], ["doc1"]]).size ∧
      c.documentIdsRef < (Heap.mk [["public"], ["doc1"]]).size) ∧
    ((cloneRefConfigs (Heap.mk [["public"], ["doc1"]])
        ([⟨0, 1⟩] : List RefConfig)).2.length =
      ([⟨0, 1⟩] : List RefConfig).length ∧
    ∀ p ∈ (cloneRefConfigs (Heap.mk [["public"], ["doc1"]])
        ([⟨0, 1⟩] : List RefConfig)).2.zip ([⟨0, 1⟩] : List RefConfig),
      ((cloneRefConfigs (Heap.mk [["public"], ["doc1"]])
          ([⟨0, 1⟩] : List RefConfig)).1.read p.1.channelsRef =
        (Heap.mk [["public"], ["doc1"]]).read p.2.channelsRef ∧
       (cloneRefConfigs (Heap.mk [["public"], ["doc1"]])
          ([⟨0, 1⟩] : List RefConfig)).1.read p.1.documentIdsRef =
        (Heap.mk [["public"], ["doc1"]]).read p.2.documentIdsRef) ∧
      ∀ q ∈ ([⟨0, 1⟩] : List RefConfig), ∀ xs,
        ((cloneRefConfigs (Heap.mk [["public"], ["doc1"]])
            ([⟨0, 1⟩] : List RefConfig)).1.write p.1.channelsRef xs).read
            q.channelsRef =
          (cloneRefConfigs (Heap.mk [["public"], ["doc1"]])
            ([⟨0, 1⟩] : List RefConfig)).1.read q.channelsRef ∧
        ((cloneRefConfigs (Heap.mk [["public"], ["doc1"]])
            ([⟨0, 1⟩] : List RefConfig)).1.write p.1.documentIdsRef xs).read
            q.documentIdsRef =
          (cloneRefConfigs (Heap.mk [["public"], ["doc1"]])
            ([⟨0, 1⟩] : List RefConfig)).1.read q.documentIdsRef ∧
        ((cloneRefConfigs (Heap.mk [["public"], ["doc1"]])
            ([⟨0, 1⟩] : List RefConfig)).1.write q.channelsRef xs).read
            p.1.channelsRef =
          (cloneRefConfigs (Heap.mk [["public"], ["doc1"]])
            ([⟨0, 1⟩] : List RefConfig)).1.read p.1.channelsRef ∧
        ((cloneRefConfigs (Heap.mk [["public"], ["doc1"]])
            ([⟨0, 1⟩] : List RefConfig)).1.write q.documentIdsRef xs).read
            p.1.documentIdsRef =
          (cloneRefConfigs (Heap.mk [["public"], ["doc1"]])
            ([⟨0, 1⟩] : List RefConfig)).1.read p.1.documentIdsRef) :=
  ⟨by decide, clone_lists_independent (Heap.mk [["public"], ["doc1"]])
    ([⟨0, 1⟩] : List RefConfig) (by decide)⟩
